import Mathlib

/-!
A verification development for the `noahgmlee/compiler` Lox tree-walking
interpreter (Rust).  The Rust sources are shallowly embedded: each `def`
below mirrors one function of the source crate.  Shared mutable state
(`Rc<RefCell<Environment>>`, `Rc<RefCell<LoxInstance>>`) is modelled as an
arena: a list of frames (resp. instances) indexed by `Nat` handles, so that
reference equality of `Rc` pointers becomes equality of indices.  Machine
`f64` numbers are modelled as exact rationals (`Rat`); no property proved
here depends on float rounding, NaN, or division by zero.  Recursive
interpreter loops take an explicit fuel argument; fuel exhaustion is a
distinguished outcome (`oot`) that models non-termination, which is not an
exit path of the Rust program.
-/

namespace Lox

/-- Primitive literal payloads.  In the source, `Token.literal` and
`LiteralExpr.literal` have type `LoxValue`, but the lexer and the parser
only ever store `Nil`, `Boolean`, `Number` or `String` there — the runtime
variants (`Callable`, `Class`, `Instance`) cannot occur in the AST.  The
embedding uses this restricted type to break the AST / runtime-value
recursion. -/
inductive Prim where
| nil : Prim
| boolean (b : Bool) : Prim
| number (n : Rat) : Prim
| str (s : String) : Prim
deriving DecidableEq

/-- `TokenType` from `lexer.rs`.  Constructor names are lower-camel-cased
and keyword-colliding ones get a `T` suffix. -/
inductive TokenType where
| leftParen | rightParen | leftBrace | rightBrace | comma | dot
| minus | plus | semicolon | slash | star
| bang | bangEqual | equal | equalEqual
| greater | greaterEqual | less | lessEqual
| identifier | stringT | number
| andT | classT | elseT | falseT | funT | forT | ifT | nilT | orT
| printT | returnT | superT | thisT | trueT | varT | whileT
| eof
deriving DecidableEq

/-- `Token` from `lexer.rs`: `(token_type, token, literal, line)`.  The
derived `PartialEq`/`Hash` of the source compare all four fields (the
`Hash` impl hashes lexeme, type and line; `PartialEq` additionally compares
the literal, and the map behaves as its `Eq`). -/
structure Token where
  token_type : TokenType
  token : String
  literal : Prim
  line : Nat
deriving DecidableEq

/-- `Expr` from `ast.rs` (the full version under `src/interpreter/rust`).
The per-variant structs (`AssignExpr`, `BinaryExpr`, …) are inlined as
constructor fields.  The `Super` variant is omitted: no parser production
constructs it and neither the resolver's `resolve_expr` nor the
evaluator's `evaluate` has an arm for it. -/
inductive Expr where
| assign (name : Token) (value : Expr)
| binary (left : Expr) (operator : Token) (right : Expr)
| call (callee : Expr) (paren : Token) (arguments : List Expr)
| get (object : Expr) (name : Token)
| set (object : Expr) (name : Token) (value : Expr)
| grouping (expression : Expr)
| literal (token_type : TokenType) (lit : Prim)
| unary (operator : Token) (right : Expr)
| varE (name : Token)
| logical (left : Expr) (operator : Token) (right : Expr)
| thisE (keyword : Token)

mutual

/-- The derived structural `PartialEq`/`Eq` on `Expr` (`#[derive(Hash,
PartialEq, Eq)]` in `ast.rs`): all fields compared recursively.  The
derived `Hash` is coarser than `Eq` (it ignores `LiteralExpr.literal`), so
`HashMap<Expr, usize>` behaves exactly as a map keyed by this equality. -/
def beqExpr : Expr → Expr → Bool
| .assign n v, .assign n2 v2 => n == n2 && beqExpr v v2
| .binary l o r, .binary l2 o2 r2 => beqExpr l l2 && o == o2 && beqExpr r r2
| .call c p a, .call c2 p2 a2 => beqExpr c c2 && p == p2 && beqExprList a a2
| .get o n, .get o2 n2 => beqExpr o o2 && n == n2
| .set o n v, .set o2 n2 v2 => beqExpr o o2 && n == n2 && beqExpr v v2
| .grouping e, .grouping e2 => beqExpr e e2
| .literal t l, .literal t2 l2 => t == t2 && l == l2
| .unary o r, .unary o2 r2 => o == o2 && beqExpr r r2
| .varE n, .varE n2 => n == n2
| .logical l o r, .logical l2 o2 r2 => beqExpr l l2 && o == o2 && beqExpr r r2
| .thisE k, .thisE k2 => k == k2
| _, _ => false

/-- Field-wise equality of expression lists (derived `PartialEq` on
`Vec<Expr>`). -/
def beqExprList : List Expr → List Expr → Bool
| [], [] => true
| x :: xs, y :: ys => beqExpr x y && beqExprList xs ys
| _, _ => false

end

mutual

/-- `Stmt` from `ast.rs`.  Keyword-colliding constructor names get an `S`
suffix; `RetStmt` becomes `ret`.  Boxes and `Rc<BlockStmt>` wrappers are
dropped (pure values). -/
inductive Stmt where
| block (statements : List Stmt)
| expression (e : Expr)
| print (e : Expr)
| ret (keyword : Token) (value : Option Expr)
| varS (name : Token) (initializer : Option Expr)
| funS (f : FunStmt)
| ifS (condition : Expr) (then_branch : Stmt) (else_branch : Option Stmt)
| whileS (condition : Expr) (body : Stmt)
| forS (initializer : Option Stmt) (condition : Option Expr) (increment : Option Expr) (body : Stmt)
| classS (name : Token) (superclass : Option Expr) (methods : List FunStmt)

/-- `FunStmt` from `ast.rs`: `(name, params, body)` where the body is the
statement list of the function's `BlockStmt`. -/
inductive FunStmt where
| mk (name : Token) (params : List Token) (body : List Stmt)

end

/-- Accessor: function name token. -/
def FunStmt.name : FunStmt → Token
| .mk n _ _ => n

/-- Accessor: parameter tokens. -/
def FunStmt.params : FunStmt → List Token
| .mk _ p _ => p

/-- Accessor: body statement list. -/
def FunStmt.body : FunStmt → List Stmt
| .mk _ _ b => b

/-- `LoxFunction` from `stl.rs`: declaration, captured environment (an
arena handle standing for `Rc<RefCell<Environment>>`), and the
is-initializer flag. -/
structure LoxFunction where
  declaration : FunStmt
  closure : Nat
  is_initializer : Bool

/-- `LoxClass` from `oop.rs`: name and method table.  The `HashMap<String,
LoxFunction>` is modelled as an association list with last-write-wins
insertion. -/
structure LoxClass where
  name : String
  methods : List (String × LoxFunction)

/-- The closed set of `dyn LoxCallable` implementors: `ClockCallable`
(`stl.rs`), `LoxFunction` (`stl.rs`) and `LoxClass` (`oop.rs`). -/
inductive Callable where
| clock : Callable
| func (f : LoxFunction) : Callable
| klass (c : LoxClass) : Callable

/-- `LoxValue` from `lexer.rs`.  `Instance` carries an arena handle into
the instance heap (for `Rc<RefCell<LoxInstance>>`); `Number(f64)` is
modelled as `Rat`. -/
inductive LoxValue where
| nil : LoxValue
| boolean (b : Bool) : LoxValue
| number (n : Rat) : LoxValue
| stringV (s : String) : LoxValue
| callable (c : Callable) : LoxValue
| classV (c : LoxClass) : LoxValue
| instanceV (i : Nat) : LoxValue

/-- `LoxInstance` from `oop.rs`: its class (a copy, as in the source's
`class: LoxClass` field) and the mutable property map. -/
structure LoxInstance where
  cls : LoxClass
  properties : List (String × LoxValue)

/-- One `Environment` frame (`environment.rs`): the `values` map and the
optional enclosing frame, as an arena handle for the
`Rc<RefCell<Environment>>` parent pointer. -/
structure Frame where
  values : List (String × LoxValue)
  enclosing : Option Nat

/-- The arena of environment frames.  A handle `fid : Nat` indexes this
list; distinct handles are distinct `Rc` allocations, so handle equality
is reference equality. -/
abbrev Store := List Frame

/-- Lookup in a `HashMap<String, V>` modelled as an association list. -/
def lookupVals {α : Type} : List (String × α) → String → Option α
| [], _ => none
| (k, v) :: rest, name => if k == name then some v else lookupVals rest name

/-- `HashMap::insert`: replace the binding if the key is present, else add
it. -/
def insertVal {α : Type} : List (String × α) → String → α → List (String × α)
| [], name, v => [(name, v)]
| (k, w) :: rest, name, v =>
  if k == name then (name, v) :: rest else (k, w) :: insertVal rest name v

/-- Replace the frame at index `fid` by `f fid`'s image (in-place `RefCell`
mutation of one arena slot). -/
def storeUpdate : Store → Nat → (Frame → Frame) → Store
| [], _, _ => []
| fr :: rest, 0, f => f fr :: rest
| fr :: rest, n + 1, f => fr :: storeUpdate rest n f

/-- The `"Undefined variable '<name>'."` message used throughout
`environment.rs`. -/
def undefinedVar (name : String) : String :=
  "Undefined variable " ++ "\x27" ++ name ++ "\x27."

/-- `Environment::define`: unconditionally insert into the frame `fid`. -/
def envDefine (σ : Store) (fid : Nat) (name : String) (v : LoxValue) : Store :=
  storeUpdate σ fid (fun fr => { fr with values := insertVal fr.values name v })

/-- `Environment::get`, recursing along the enclosing chain.  The Rust
recursion terminates because `Rc` chains built by `new_enclosed` are
acyclic; the embedding bounds it by a gas argument instead (callers pass
`σ.length + 1`, enough for any chain through distinct frames).  An inner
`Err` is swallowed and rebuilt at the outer level exactly as in the
source, which yields the same message. -/
def getGas : Nat → Store → Frame → String → Except String LoxValue
| 0, _, _, name => .error (undefinedVar name)
| gas + 1, σ, fr, name =>
  match lookupVals fr.values name with
  | some v => .ok v
  | none =>
    match fr.enclosing with
    | some fid =>
      match σ.get? fid with
      | some fr2 =>
        match getGas gas σ fr2 name with
        | .ok v => .ok v
        | .error _ => .error (undefinedVar name)
      | none => .error (undefinedVar name)
    | none => .error (undefinedVar name)

/-- `Environment::get` on the frame behind handle `fid`. -/
def envGet (σ : Store) (fid : Nat) (name : String) : Except String LoxValue :=
  match σ.get? fid with
  | some fr => getGas (σ.length + 1) σ fr name
  | none => .error (undefinedVar name)

/-- `Environment::assign`, mutating the first frame along the chain that
holds the name (a real mutation through `borrow_mut`, unlike
`assign_at`).  Gas as in `getGas`. -/
def assignGas : Nat → Store → Nat → String → LoxValue → Except String Unit × Store
| 0, σ, _, name, _ => (.error (undefinedVar name), σ)
| gas + 1, σ, fid, name, v =>
  match σ.get? fid with
  | some fr =>
    if (lookupVals fr.values name).isSome then
      (.ok (), envDefine σ fid name v)
    else
      match fr.enclosing with
      | some pfid =>
        match assignGas gas σ pfid name v with
        | (.ok _, σ2) => (.ok (), σ2)
        | (.error _, σ2) => (.error (undefinedVar name), σ2)
      | none => (.error (undefinedVar name), σ)
  | none => (.error (undefinedVar name), σ)

/-- `Environment::assign` entry point. -/
def envAssign (σ : Store) (fid : Nat) (name : String) (v : LoxValue) :
    Except String Unit × Store :=
  assignGas (σ.length + 1) σ fid name v

/-- `Environment::ancestor`.  The Rust code starts from `self.clone()` and
repeatedly replaces it by `enclosing.borrow().clone()`, then wraps the
result in a **fresh** `Rc::new(RefCell::new(..))`.  The returned cell is
therefore a detached copy of the ancestor frame that shares nothing with
the arena; the embedding returns the copied `Frame` value. -/
def ancestor (σ : Store) : Frame → Nat → Option Frame
| fr, 0 => some fr
| fr, d + 1 =>
  match fr.enclosing with
  | some fid =>
    match σ.get? fid with
    | some fr2 => ancestor σ fr2 d
    | none => none
  | none => none

/-- `Environment::get_at`: read from the (copied) ancestor frame, with no
further chain search.  Reading from the copy returns the same values the
arena frame held at call time. -/
def get_at (σ : Store) (fr : Frame) (distance : Nat) (name : String) :
    Except String LoxValue :=
  match ancestor σ fr distance with
  | some a =>
    match lookupVals a.values name with
    | some v => .ok v
    | none => .error (undefinedVar name)
  | none => .error (undefinedVar name)

/-- `Environment::assign_at`.  The insert lands in the detached clone that
`ancestor` returned; that clone lives in a fresh `Rc` referenced by
nothing else, so the arena is not modified in any branch — the binding
update is lost while `Ok(())` is still returned. -/
def assign_at (σ : Store) (fr : Frame) (distance : Nat) (name : String)
    (v : LoxValue) : Except String Unit × Store :=
  match ancestor σ fr distance with
  | some a =>
    if (lookupVals a.values name).isSome then
      let _updatedClone := { a with values := insertVal a.values name v }
      (.ok (), σ)
    else (.error (undefinedVar name), σ)
  | none => (.error (undefinedVar name), σ)

/-- Lookup in the interpreter's `locals: HashMap<Expr, usize>` side table,
keyed by the derived structural equality of `Expr`. -/
def localsLookup : List (Expr × Nat) → Expr → Option Nat
| [], _ => none
| (k, d) :: rest, e => if beqExpr k e then some d else localsLookup rest e

/-- `HashMap::insert` into the side table: a structurally equal key is
overwritten. -/
def localsInsert : List (Expr × Nat) → Expr → Nat → List (Expr × Nat)
| [], e, d => [(e, d)]
| (k, w) :: rest, e, d =>
  if beqExpr k e then (e, d) :: rest else (k, w) :: localsInsert rest e d

end Lox

namespace Lox

/-- Rust `bool` Display. -/
def boolDisplay (b : Bool) : String := if b then "true" else "false"

/-- Rust `f64` Display for the values the interpreter ever prints.  An
integral double prints with no fractional part (`2.0` → `"2"`); other
rationals are shown as `num/den`, an approximation of the float formatter
that no claim below depends on. -/
def ratDisplay (q : Rat) : String :=
  if q.den == 1 then toString q.num else toString q.num ++ "/" ++ toString q.den

/-- The `{:?}` (derived Debug) name of a token type variant. -/
def tokenTypeName : TokenType → String
| .leftParen => "LeftParen"
| .rightParen => "RightParen"
| .leftBrace => "LeftBrace"
| .rightBrace => "RightBrace"
| .comma => "Comma"
| .dot => "Dot"
| .minus => "Minus"
| .plus => "Plus"
| .semicolon => "Semicolon"
| .slash => "Slash"
| .star => "Star"
| .bang => "Bang"
| .bangEqual => "BangEqual"
| .equal => "Equal"
| .equalEqual => "EqualEqual"
| .greater => "Greater"
| .greaterEqual => "GreaterEqual"
| .less => "Less"
| .lessEqual => "LessEqual"
| .identifier => "Identifier"
| .stringT => "String"
| .number => "Number"
| .andT => "And"
| .classT => "Class"
| .elseT => "Else"
| .falseT => "False"
| .funT => "Fun"
| .forT => "For"
| .ifT => "If"
| .nilT => "Nil"
| .orT => "Or"
| .printT => "Print"
| .returnT => "Return"
| .superT => "Super"
| .thisT => "This"
| .trueT => "True"
| .varT => "Var"
| .whileT => "While"
| .eof => "Eof"

/-- `impl Display for Token` from `lexer.rs`. -/
def tokenDisplay (t : Token) : String :=
  "TOKEN_TYPE: " ++ tokenTypeName t.token_type ++ ", TOKEN: " ++ t.token ++
    ", LINE: " ++ toString t.line

/-- The `{:?}` rendering of a boxed callable, as printed by
`LoxValue::Callable`'s Display arm.  Approximated by the inner Debug
impls (`Loxfunction { name: .. }` from `stl.rs`); no claim depends on this
text. -/
def callableDisplay : Callable → String
| .clock => "ClockCallable"
| .func f => "Loxfunction \x7b name: " ++ f.declaration.name.token ++ " \x7d"
| .klass c => c.name

/-- `impl Display for LoxValue` from `lexer.rs`.  Instances display as
`<ClassName> instance` (`oop.rs`); the instance heap is needed to follow
the handle. -/
def displayValue (insts : List LoxInstance) : LoxValue → String
| .nil => "nil"
| .boolean b => boolDisplay b
| .number n => ratDisplay n
| .stringV s => s
| .callable c => callableDisplay c
| .classV c => c.name
| .instanceV i =>
  match insts.get? i with
  | some inst => inst.cls.name ++ " instance"
  | none => "instance"

/-- `FunctionType` from `resolver.rs`. -/
inductive FunctionType where
| noneF | function | initializer | method
deriving DecidableEq

/-- `ClassType` from `resolver.rs`. -/
inductive ClassType where
| noneC | classC
deriving DecidableEq

/-- The `Resolver` state: the scope stack, the context flags, the side
table it writes into the interpreter (`interpreter.resolve(expr, depth)`),
and the diagnostics it has printed to stderr.  The scope stack holds the
innermost scope at the head, whereas the Rust `Vec` holds it at the end;
`resolveLocal` compensates (see there), so recorded distances agree. -/
structure RState where
  scopes : List (List (String × Bool))
  current_function : FunctionType
  current_class : ClassType
  locals : List (Expr × Nat)
  diags : List String

/-- Abnormal resolver termination: `panicked` models a Rust `panic!`
(which aborts the whole process), `outOfFuel` models exhausted fuel and is
unreachable for the concrete programs considered here. -/
inductive RPanic where
| panicked (m : String)
| outOfFuel

/-- `Resolver::begin_scope`. -/
def beginScope (st : RState) : RState := { st with scopes := [] :: st.scopes }

/-- `Resolver::end_scope`. -/
def endScope (st : RState) : RState := { st with scopes := st.scopes.tail }

/-- `Resolver::declare`: duplicate declaration in the innermost scope
prints an error and panics. -/
def rdeclare (st : RState) (name : Token) : Except RPanic RState :=
  match st.scopes with
  | [] => .ok st
  | scope :: rest =>
    if (lookupVals scope name.token).isSome then
      .error (.panicked ("Error: Variable " ++ name.token ++
        " already declared in this scope."))
    else .ok { st with scopes := insertVal scope name.token false :: rest }

/-- `Resolver::define`. -/
def rdefine (st : RState) (name : Token) : RState :=
  match st.scopes with
  | [] => st
  | scope :: rest => { st with scopes := insertVal scope name.token true :: rest }

/-- Index (from the innermost scope) of the first scope containing the
name.  Rust iterates `scopes.iter().enumerate().rev()` — from the `Vec`'s
end, i.e. from the innermost scope — and records `scopes.len() - 1 - i`;
with the innermost scope at the head this is exactly the index found
here. -/
def scopesFind : List (List (String × Bool)) → String → Option Nat
| [], _ => none
| scope :: rest, name =>
  if (lookupVals scope name).isSome then some 0
  else
    match scopesFind rest name with
    | some j => some (j + 1)
    | none => none

/-- `Resolver::resolve_local`, writing through to
`Interpreter::resolve(expr, depth)`, i.e. `locals.insert(expr, depth)`. -/
def resolveLocal (st : RState) (e : Expr) (name : Token) : RState :=
  match scopesFind st.scopes name.token with
  | some j => { st with locals := localsInsert st.locals e j }
  | none => st

/-- Declare and define each parameter in turn (`resolve_function`'s
parameter loop); a duplicate parameter name panics in `declare`. -/
def declareParams (st : RState) : List Token → Except RPanic RState
| [] => .ok st
| p :: rest =>
  match rdeclare st p with
  | .ok st1 => declareParams (rdefine st1 p) rest
  | .error e => .error e

/-- Insert `this := true` into the innermost scope
(`visitClassStmt`; the source unwraps `scopes.last_mut()`, which cannot
fail right after `begin_scope`). -/
def scopesInsertThis (st : RState) : RState :=
  match st.scopes with
  | scope :: rest => { st with scopes := insertVal scope "this" true :: rest }
  | [] => st

mutual

/-- `Resolver::resolve_stmt` dispatch plus each `visit*Stmt` body. -/
def resolveStmt : Nat → RState → Stmt → Except RPanic RState
| 0, _, _ => .error .outOfFuel
| fuel + 1, st, stmt =>
  match stmt with
  | .block stmts =>
    match resolveStmts fuel (beginScope st) stmts with
    | .ok st1 => .ok (endScope st1)
    | .error e => .error e
  | .expression e => resolveExpr fuel st e
  | .print e => resolveExpr fuel st e
  | .ret _ value =>
    if st.current_function == .noneF then
      .error (.panicked "Error: Can\x27t return from top-level code.")
    else
      match value with
      | some v =>
        if st.current_function == .initializer then
          .error (.panicked "Error: Can\x27t return a value from an initializer.")
        else resolveExpr fuel st v
      | none => .ok st
  | .varS name initializer =>
    match rdeclare st name with
    | .ok st1 =>
      match initializer with
      | some init =>
        match resolveExpr fuel st1 init with
        | .ok st2 => .ok (rdefine st2 name)
        | .error e => .error e
      | none => .ok (rdefine st1 name)
    | .error e => .error e
  | .funS f =>
    match rdeclare st f.name with
    | .ok st1 => resolveFunction fuel (rdefine st1 f.name) f .function
    | .error e => .error e
  | .ifS c t e =>
    match resolveExpr fuel st c with
    | .ok st1 =>
      match resolveStmt fuel st1 t with
      | .ok st2 =>
        match e with
        | some els => resolveStmt fuel st2 els
        | none => .ok st2
      | .error er => .error er
    | .error er => .error er
  | .whileS c b =>
    match resolveExpr fuel st c with
    | .ok st1 => resolveStmt fuel st1 b
    | .error e => .error e
  | .forS _ _ _ _ => .ok st
  | .classS name _superclass methods =>
    let enclosing := st.current_class
    match rdeclare { st with current_class := .classC } name with
    | .ok st1 =>
      match resolveMethods fuel (scopesInsertThis (beginScope (rdefine st1 name))) methods with
      | .ok st2 => .ok { endScope st2 with current_class := enclosing }
      | .error e => .error e
    | .error e => .error e

/-- `Resolver::resolve` over a statement slice. -/
def resolveStmts : Nat → RState → List Stmt → Except RPanic RState
| 0, _, _ => .error .outOfFuel
| _ + 1, st, [] => .ok st
| fuel + 1, st, s :: rest =>
  match resolveStmt fuel st s with
  | .ok st1 => resolveStmts fuel st1 rest
  | .error e => .error e

/-- `Resolver::resolve_expr` dispatch plus each `visit*Expr` body. -/
def resolveExpr : Nat → RState → Expr → Except RPanic RState
| 0, _, _ => .error .outOfFuel
| fuel + 1, st, e =>
  match e with
  | .literal _ _ => .ok st
  | .grouping inner => resolveExpr fuel st inner
  | .unary _ r => resolveExpr fuel st r
  | .binary l _ r =>
    match resolveExpr fuel st l with
    | .ok st1 => resolveExpr fuel st1 r
    | .error er => .error er
  | .call callee _ args =>
    match resolveExpr fuel st callee with
    | .ok st1 => resolveExprList fuel st1 args
    | .error er => .error er
  | .get o _ => resolveExpr fuel st o
  | .set o _ v =>
    match resolveExpr fuel st v with
    | .ok st1 => resolveExpr fuel st1 o
    | .error er => .error er
  | .varE name =>
    let st1 :=
      match st.scopes with
      | scope :: _ =>
        match lookupVals scope name.token with
        | some false =>
          { st with diags := st.diags ++
              ["Can\x27t read local variable " ++ name.token ++
                " in its own initializer."] }
        | _ => st
      | [] => st
    .ok (resolveLocal st1 (.varE name) name)
  | .assign name value =>
    match resolveExpr fuel st value with
    | .ok st1 => .ok (resolveLocal st1 (.assign name value) name)
    | .error er => .error er
  | .logical l _ r =>
    match resolveExpr fuel st l with
    | .ok st1 => resolveExpr fuel st1 r
    | .error er => .error er
  | .thisE kw =>
    if st.current_class == .noneC then
      .error (.panicked "Error: Can\x27t use \x27this\x27 outside of a class.")
    else .ok (resolveLocal st (.thisE kw) kw)

/-- Resolve call arguments in order. -/
def resolveExprList : Nat → RState → List Expr → Except RPanic RState
| 0, _, _ => .error .outOfFuel
| _ + 1, st, [] => .ok st
| fuel + 1, st, e :: rest =>
  match resolveExpr fuel st e with
  | .ok st1 => resolveExprList fuel st1 rest
  | .error er => .error er

/-- `Resolver::resolve_function`. -/
def resolveFunction : Nat → RState → FunStmt → FunctionType → Except RPanic RState
| 0, _, _, _ => .error .outOfFuel
| fuel + 1, st, f, ftype =>
  let enclosing := st.current_function
  match declareParams (beginScope { st with current_function := ftype }) f.params with
  | .ok st1 =>
    match resolveStmt fuel st1 (.block f.body) with
    | .ok st2 => .ok { endScope st2 with current_function := enclosing }
    | .error e => .error e
  | .error e => .error e

/-- `visitClassStmt`'s method loop: `init` resolves as `Initializer`,
anything else as `Method`. -/
def resolveMethods : Nat → RState → List FunStmt → Except RPanic RState
| 0, _, _ => .error .outOfFuel
| _ + 1, st, [] => .ok st
| fuel + 1, st, m :: rest =>
  match resolveFunction fuel st m
      (if m.name.token == "init" then .initializer else .method) with
  | .ok st1 => resolveMethods fuel st1 rest
  | .error e => .error e

end

/-- A fresh `Resolver` (`Resolver::new`): empty scope stack, `None`
contexts, empty side table. -/
def initialRState : RState := ⟨[], .noneF, .noneC, [], []⟩

/-- Resolve a whole program with a fresh resolver, as `run` in `main.rs`
does. -/
def resolveProgram (fuel : Nat) (stmts : List Stmt) : Except RPanic RState :=
  resolveStmts fuel initialRState stmts

end Lox

namespace Lox

/-- `Parser` state (`parser.rs`): token vector, cursor, plus the
diagnostics that `error` → `error_at_token` has printed to stderr. -/
structure PState where
  tokens : List Token
  current : Nat
  diags : List String

/-- `ParserError {}` from `parser.rs`, plus a distinguished fuel-exhaustion
marker (unreachable at the fuel values used below; the Rust recursion
terminates because each recursive call either consumes a token or moves to
a strictly smaller production). -/
inductive PErr where
| mk
| outOfFuel

/-- `report` from `logging.rs`. -/
def report (line : Nat) (location : String) (message : String) : String :=
  "[line " ++ toString line ++ "] Error " ++ location ++ ": " ++ message

/-- `error_at_token` from `logging.rs`. -/
def errorAtToken (t : Token) (message : String) : String :=
  if t.token_type == .eof then report t.line " at end" message
  else report t.line (" at " ++ "\x27" ++ t.token ++ "\x27") message

/-- `Parser::error`: report the diagnostic; the `ParserError` value itself
is built at the call site. -/
def perror (st : PState) (t : Token) (message : String) : PState :=
  { st with diags := st.diags ++ [errorAtToken t message] }

/-- Fallback for out-of-range indexing.  The Rust code indexes the token
vector directly and would panic; with an `Eof`-terminated stream the
cursor never passes the sentinel, so this value is unreachable. -/
def eofFallback : Token := ⟨.eof, "", .nil, 0⟩

/-- `Parser::peek`. -/
def peek (st : PState) : Token := (st.tokens.get? st.current).getD eofFallback

/-- `Parser::previous`. -/
def previous (st : PState) : Token :=
  (st.tokens.get? (st.current - 1)).getD eofFallback

/-- `Parser::is_at_end`. -/
def isAtEnd (st : PState) : Bool := (peek st).token_type == .eof

/-- `Parser::check`. -/
def check (st : PState) (tt : TokenType) : Bool :=
  if isAtEnd st then false else (peek st).token_type == tt

/-- `Parser::advance`: step the cursor unless at `Eof`, return the token
just passed. -/
def advance (st : PState) : Token × PState :=
  let st1 := if !isAtEnd st then { st with current := st.current + 1 } else st
  (previous st1, st1)

/-- `Parser::match_tokens`. -/
def matchTokens (st : PState) : List TokenType → Bool × PState
| [] => (false, st)
| tt :: rest =>
  if check st tt then (true, (advance st).2) else matchTokens st rest

/-- `Parser::consume`. -/
def consume (st : PState) (tt : TokenType) (message : String) :
    Except PErr Token × PState :=
  if check st tt then
    let (tok, st1) := advance st
    (.ok tok, st1)
  else (.error .mk, perror st (peek st) message)

/-- The loop body of `Parser::synchronize`, bounded by the number of
tokens left (the loop advances the cursor every iteration). -/
def syncGas : Nat → PState → PState
| 0, st => st
| gas + 1, st =>
  if isAtEnd st then st
  else if (previous st).token_type == .semicolon then st
  else
    match (peek st).token_type with
    | .classT => st
    | .funT => st
    | .varT => st
    | .forT => st
    | .ifT => st
    | .whileT => st
    | .printT => st
    | .returnT => st
    | _ => syncGas gas (advance st).2

/-- `Parser::synchronize`: skip one token, then discard up to the next
statement boundary. -/
def synchronize (st : PState) : PState :=
  syncGas (st.tokens.length + 1) (advance st).2

mutual

/-- `Parser::declaration`: only `fun` and `var` have dedicated branches —
there is no `class` branch in the source. -/
def parseDeclaration : Nat → PState → Except PErr Stmt × PState
| 0, st => (.error .outOfFuel, st)
| fuel + 1, st =>
  match matchTokens st [.funT] with
  | (true, st1) => parseFunction fuel st1 "function"
  | (false, st1) =>
    match matchTokens st1 [.varT] with
    | (true, st2) => parseVarDeclaration fuel st2
    | (false, st2) => parseStatement fuel st2

/-- `Parser::function`. -/
def parseFunction : Nat → PState → String → Except PErr Stmt × PState
| 0, st, _ => (.error .outOfFuel, st)
| fuel + 1, st, kind =>
  match consume st .identifier ("Expect " ++ kind ++ " name.") with
  | (.ok name, st1) =>
    match consume st1 .leftParen
        ("Expect \x27(\x27 after " ++ kind ++ " name.") with
    | (.ok _, st2) =>
      match
        (if check st2 .rightParen then (.ok [], st2)
         else paramsLoop fuel st2 []) with
      | (.ok parameters, st3) =>
        match consume st3 .rightParen "Expect \x27)\x27 after parameters." with
        | (.ok _, st4) =>
          match consume st4 .leftBrace
              ("Expect \x27\x7b\x27 before " ++ kind ++ " body.") with
          | (.ok _, st5) =>
            match parseBlockItems fuel st5 [] with
            | (.ok body, st6) => (.ok (.funS (.mk name parameters body)), st6)
            | (.error e, st6) => (.error e, st6)
          | (.error e, st5) => (.error e, st5)
        | (.error e, st4) => (.error e, st4)
      | (.error e, st3) => (.error e, st3)
    | (.error e, st2) => (.error e, st2)
  | (.error e, st1) => (.error e, st1)

/-- The parameter loop of `Parser::function`; the 255-parameter check runs
before each parameter is consumed. -/
def paramsLoop : Nat → PState → List Token → Except PErr (List Token) × PState
| 0, st, _ => (.error .outOfFuel, st)
| fuel + 1, st, acc =>
  if 255 ≤ acc.length then
    (.error .mk, perror st (peek st) "Cannot have more than 255 parameters.")
  else
    match consume st .identifier "Expect parameter name." with
    | (.ok p, st1) =>
      match matchTokens st1 [.comma] with
      | (true, st2) => paramsLoop fuel st2 (acc ++ [p])
      | (false, st2) => (.ok (acc ++ [p]), st2)
    | (.error e, st1) => (.error e, st1)

/-- `Parser::var_declaration`. -/
def parseVarDeclaration : Nat → PState → Except PErr Stmt × PState
| 0, st => (.error .outOfFuel, st)
| fuel + 1, st =>
  match consume st .identifier "Expect variable name." with
  | (.ok name, st1) =>
    match matchTokens st1 [.equal] with
    | (true, st2) =>
      match parseExpression fuel st2 with
      | (.ok init, st3) =>
        match consume st3 .semicolon
            "Expect \x27;\x27 after variable declaration." with
        | (.ok _, st4) => (.ok (.varS name (some init)), st4)
        | (.error e, st4) => (.error e, st4)
      | (.error e, st3) => (.error e, st3)
    | (false, st2) =>
      match consume st2 .semicolon
          "Expect \x27;\x27 after variable declaration." with
      | (.ok _, st3) => (.ok (.varS name none), st3)
      | (.error e, st3) => (.error e, st3)
  | (.error e, st1) => (.error e, st1)

/-- `Parser::statement`: `for`, `if`, `print`, `while`, block, else
expression statement — there is no `return` branch in the source. -/
def parseStatement : Nat → PState → Except PErr Stmt × PState
| 0, st => (.error .outOfFuel, st)
| fuel + 1, st =>
  match matchTokens st [.forT] with
  | (true, st1) => parseForStatement fuel st1
  | (false, st1) =>
    match matchTokens st1 [.ifT] with
    | (true, st2) => parseIfStatement fuel st2
    | (false, st2) =>
      match matchTokens st2 [.printT] with
      | (true, st3) => parsePrintStatement fuel st3
      | (false, st3) =>
        match matchTokens st3 [.whileT] with
        | (true, st4) => parseWhileStatement fuel st4
        | (false, st4) =>
          match matchTokens st4 [.leftBrace] with
          | (true, st5) =>
            match parseBlockItems fuel st5 [] with
            | (.ok stmts, st6) => (.ok (.block stmts), st6)
            | (.error e, st6) => (.error e, st6)
          | (false, st5) => parseExpressionStatement fuel st5

/-- `Parser::for_statement`: the parse-time desugaring into `While`.  An
absent condition is replaced by a `Nil` literal
(`LiteralExpr::new(TokenType::Nil, LoxValue::Nil)`). -/
def parseForStatement : Nat → PState → Except PErr Stmt × PState
| 0, st => (.error .outOfFuel, st)
| fuel + 1, st =>
  match consume st .leftParen "Expect \x27(\x27 after \x27for\x27." with
  | (.ok _, st1) =>
    match
      (match matchTokens st1 [.semicolon] with
       | (true, st2) => (Except.ok (none : Option Stmt), st2)
       | (false, st2) =>
         match matchTokens st2 [.varT] with
         | (true, st3) =>
           match parseVarDeclaration fuel st3 with
           | (.ok s, st4) => (Except.ok (some s), st4)
           | (.error e, st4) => (Except.error e, st4)
         | (false, st3) =>
           match parseExpressionStatement fuel st3 with
           | (.ok s, st4) => (Except.ok (some s), st4)
           | (.error e, st4) => (Except.error e, st4)) with
    | (.ok initializer, st5) =>
      match
        (if !check st5 .semicolon then
          match parseExpression fuel st5 with
          | (.ok c, st6) => (Except.ok (some c), st6)
          | (.error e, st6) => (Except.error e, st6)
         else (Except.ok (none : Option Expr), st5)) with
      | (.ok condition, st7) =>
        match consume st7 .semicolon "Expect \x27;\x27 after loop condition." with
        | (.ok _, st8) =>
          match
            (if !check st8 .rightParen then
              match parseExpression fuel st8 with
              | (.ok i, st9) => (Except.ok (some i), st9)
              | (.error e, st9) => (Except.error e, st9)
             else (Except.ok (none : Option Expr), st8)) with
          | (.ok increment, st10) =>
            match consume st10 .rightParen "Expect \x27)\x27 after for clauses." with
            | (.ok _, st11) =>
              match parseStatement fuel st11 with
              | (.ok body0, st12) =>
                let body1 :=
                  match increment with
                  | some inc => Stmt.block [body0, .expression inc]
                  | none => body0
                let cond := condition.getD (.literal .nilT Prim.nil)
                let body2 := Stmt.whileS cond body1
                match initializer with
                | some init => (.ok (.block [init, body2]), st12)
                | none => (.ok body2, st12)
              | (.error e, st12) => (.error e, st12)
            | (.error e, st11) => (.error e, st11)
          | (.error e, st10) => (.error e, st10)
        | (.error e, st8) => (.error e, st8)
      | (.error e, st7) => (.error e, st7)
    | (.error e, st5) => (.error e, st5)
  | (.error e, st1) => (.error e, st1)

/-- `Parser::while_statement`. -/
def parseWhileStatement : Nat → PState → Except PErr Stmt × PState
| 0, st => (.error .outOfFuel, st)
| fuel + 1, st =>
  match consume st .leftParen "Expect \x27(\x27 after \x27while\x27." with
  | (.ok _, st1) =>
    match parseExpression fuel st1 with
    | (.ok condition, st2) =>
      match consume st2 .rightParen "Expect \x27)\x27 after condition." with
      | (.ok _, st3) =>
        match parseStatement fuel st3 with
        | (.ok body, st4) => (.ok (.whileS condition body), st4)
        | (.error e, st4) => (.error e, st4)
      | (.error e, st3) => (.error e, st3)
    | (.error e, st2) => (.error e, st2)
  | (.error e, st1) => (.error e, st1)

/-- `Parser::if_statement`. -/
def parseIfStatement : Nat → PState → Except PErr Stmt × PState
| 0, st => (.error .outOfFuel, st)
| fuel + 1, st =>
  match consume st .leftParen "Expect \x27(\x27 after \x27if\x27." with
  | (.ok _, st1) =>
    match parseExpression fuel st1 with
    | (.ok condition, st2) =>
      match consume st2 .rightParen "Expect \x27)\x27 after condition." with
      | (.ok _, st3) =>
        match parseStatement fuel st3 with
        | (.ok then_branch, st4) =>
          match matchTokens st4 [.elseT] with
          | (true, st5) =>
            match parseStatement fuel st5 with
            | (.ok else_branch, st6) =>
              (.ok (.ifS condition then_branch (some else_branch)), st6)
            | (.error e, st6) => (.error e, st6)
          | (false, st5) => (.ok (.ifS condition then_branch none), st5)
        | (.error e, st4) => (.error e, st4)
      | (.error e, st3) => (.error e, st3)
    | (.error e, st2) => (.error e, st2)
  | (.error e, st1) => (.error e, st1)

/-- `Parser::block`: declarations until `}` or end of input; any inner
error is mapped to a fresh `ParserError` and returned at once. -/
def parseBlockItems : Nat → PState → List Stmt → Except PErr (List Stmt) × PState
| 0, st, _ => (.error .outOfFuel, st)
| fuel + 1, st, acc =>
  if !isAtEnd st && !check st .rightBrace then
    match parseDeclaration fuel st with
    | (.ok s, st1) => parseBlockItems fuel st1 (acc ++ [s])
    | (.error _, st1) => (.error .mk, st1)
  else
    match consume st .rightBrace "Expect \x27\x7d\x27 after block." with
    | (.ok _, st1) => (.ok acc, st1)
    | (.error e, st1) => (.error e, st1)

/-- `Parser::print_statement`. -/
def parsePrintStatement : Nat → PState → Except PErr Stmt × PState
| 0, st => (.error .outOfFuel, st)
| fuel + 1, st =>
  match parseExpression fuel st with
  | (.ok value, st1) =>
    match consume st1 .semicolon "Expect \x27;\x27 after value." with
    | (.ok _, st2) => (.ok (.print value), st2)
    | (.error e, st2) => (.error e, st2)
  | (.error e, st1) => (.error e, st1)

/-- `Parser::expression_statement`. -/
def parseExpressionStatement : Nat → PState → Except PErr Stmt × PState
| 0, st => (.error .outOfFuel, st)
| fuel + 1, st =>
  match parseExpression fuel st with
  | (.ok e, st1) =>
    match consume st1 .semicolon "Expect \x27;\x27 after expression." with
    | (.ok _, st2) => (.ok (.expression e), st2)
    | (.error er, st2) => (.error er, st2)
  | (.error er, st1) => (.error er, st1)

/-- `Parser::expression`. -/
def parseExpression : Nat → PState → Except PErr Expr × PState
| 0, st => (.error .outOfFuel, st)
| fuel + 1, st => parseAssignment fuel st

/-- `Parser::assignment`.  When the target is not a `Variable`, the error
is **reported and then discarded**: the function still returns
`Ok(expr)`. -/
def parseAssignment : Nat → PState → Except PErr Expr × PState
| 0, st => (.error .outOfFuel, st)
| fuel + 1, st =>
  match parseOr fuel st with
  | (.ok expr, st1) =>
    match matchTokens st1 [.equal] with
    | (true, st2) =>
      let equals := previous st2
      match parseAssignment fuel st2 with
      | (.ok value, st3) =>
        match expr with
        | .varE name => (.ok (.assign name value), st3)
        | _ => (.ok expr, perror st3 equals "Invalid assignment target.")
      | (.error e, st3) => (.error e, st3)
    | (false, st2) => (.ok expr, st2)
  | (.error e, st1) => (.error e, st1)

/-- `Parser::or` entry. -/
def parseOr : Nat → PState → Except PErr Expr × PState
| 0, st => (.error .outOfFuel, st)
| fuel + 1, st =>
  match parseAnd fuel st with
  | (.ok expr, st1) => orLoop fuel st1 expr
  | (.error e, st1) => (.error e, st1)

/-- `Parser::or`'s while loop. -/
def orLoop : Nat → PState → Expr → Except PErr Expr × PState
| 0, st, _ => (.error .outOfFuel, st)
| fuel + 1, st, expr =>
  match matchTokens st [.orT] with
  | (true, st1) =>
    let operator := previous st1
    match parseAnd fuel st1 with
    | (.ok right, st2) => orLoop fuel st2 (.logical expr operator right)
    | (.error e, st2) => (.error e, st2)
  | (false, st1) => (.ok expr, st1)

/-- `Parser::and` entry. -/
def parseAnd : Nat → PState → Except PErr Expr × PState
| 0, st => (.error .outOfFuel, st)
| fuel + 1, st =>
  match parseEquality fuel st with
  | (.ok expr, st1) => andLoop fuel st1 expr
  | (.error e, st1) => (.error e, st1)

/-- `Parser::and`'s while loop. -/
def andLoop : Nat → PState → Expr → Except PErr Expr × PState
| 0, st, _ => (.error .outOfFuel, st)
| fuel + 1, st, expr =>
  match matchTokens st [.andT] with
  | (true, st1) =>
    let operator := previous st1
    match parseEquality fuel st1 with
    | (.ok right, st2) => andLoop fuel st2 (.logical expr operator right)
    | (.error e, st2) => (.error e, st2)
  | (false, st1) => (.ok expr, st1)

/-- `Parser::equality` entry. -/
def parseEquality : Nat → PState → Except PErr Expr × PState
| 0, st => (.error .outOfFuel, st)
| fuel + 1, st =>
  match parseComparison fuel st with
  | (.ok expr, st1) => eqLoop fuel st1 expr
  | (.error e, st1) => (.error e, st1)

/-- `Parser::equality`'s while loop. -/
def eqLoop : Nat → PState → Expr → Except PErr Expr × PState
| 0, st, _ => (.error .outOfFuel, st)
| fuel + 1, st, expr =>
  match matchTokens st [.bangEqual, .equalEqual] with
  | (true, st1) =>
    let operator := previous st1
    match parseComparison fuel st1 with
    | (.ok right, st2) => eqLoop fuel st2 (.binary expr operator right)
    | (.error e, st2) => (.error e, st2)
  | (false, st1) => (.ok expr, st1)

/-- `Parser::comparison` entry. -/
def parseComparison : Nat → PState → Except PErr Expr × PState
| 0, st => (.error .outOfFuel, st)
| fuel + 1, st =>
  match parseTerm fuel st with
  | (.ok expr, st1) => compLoop fuel st1 expr
  | (.error e, st1) => (.error e, st1)

/-- `Parser::comparison`'s while loop. -/
def compLoop : Nat → PState → Expr → Except PErr Expr × PState
| 0, st, _ => (.error .outOfFuel, st)
| fuel + 1, st, expr =>
  match matchTokens st [.greater, .greaterEqual, .less, .lessEqual] with
  | (true, st1) =>
    let operator := previous st1
    match parseTerm fuel st1 with
    | (.ok right, st2) => compLoop fuel st2 (.binary expr operator right)
    | (.error e, st2) => (.error e, st2)
  | (false, st1) => (.ok expr, st1)

/-- `Parser::term` entry. -/
def parseTerm : Nat → PState → Except PErr Expr × PState
| 0, st => (.error .outOfFuel, st)
| fuel + 1, st =>
  match parseFactor fuel st with
  | (.ok expr, st1) => termLoop fuel st1 expr
  | (.error e, st1) => (.error e, st1)

/-- `Parser::term`'s while loop. -/
def termLoop : Nat → PState → Expr → Except PErr Expr × PState
| 0, st, _ => (.error .outOfFuel, st)
| fuel + 1, st, expr =>
  match matchTokens st [.minus, .plus] with
  | (true, st1) =>
    let operator := previous st1
    match parseFactor fuel st1 with
    | (.ok right, st2) => termLoop fuel st2 (.binary expr operator right)
    | (.error e, st2) => (.error e, st2)
  | (false, st1) => (.ok expr, st1)

/-- `Parser::factor` entry. -/
def parseFactor : Nat → PState → Except PErr Expr × PState
| 0, st => (.error .outOfFuel, st)
| fuel + 1, st =>
  match parseUnary fuel st with
  | (.ok expr, st1) => factorLoop fuel st1 expr
  | (.error e, st1) => (.error e, st1)

/-- `Parser::factor`'s while loop. -/
def factorLoop : Nat → PState → Expr → Except PErr Expr × PState
| 0, st, _ => (.error .outOfFuel, st)
| fuel + 1, st, expr =>
  match matchTokens st [.slash, .star] with
  | (true, st1) =>
    let operator := previous st1
    match parseUnary fuel st1 with
    | (.ok right, st2) => factorLoop fuel st2 (.binary expr operator right)
    | (.error e, st2) => (.error e, st2)
  | (false, st1) => (.ok expr, st1)

/-- `Parser::unary`. -/
def parseUnary : Nat → PState → Except PErr Expr × PState
| 0, st => (.error .outOfFuel, st)
| fuel + 1, st =>
  match matchTokens st [.bang, .minus] with
  | (true, st1) =>
    let operator := previous st1
    match parseUnary fuel st1 with
    | (.ok right, st2) => (.ok (.unary operator right), st2)
    | (.error e, st2) => (.error e, st2)
  | (false, st1) => parseCall fuel st1

/-- `Parser::call`. -/
def parseCall : Nat → PState → Except PErr Expr × PState
| 0, st => (.error .outOfFuel, st)
| fuel + 1, st =>
  match parsePrimary fuel st with
  | (.ok expr, st1) => callLoop fuel st1 expr
  | (.error e, st1) => (.error e, st1)

/-- `Parser::call`'s loop: repeated argument lists. -/
def callLoop : Nat → PState → Expr → Except PErr Expr × PState
| 0, st, _ => (.error .outOfFuel, st)
| fuel + 1, st, expr =>
  match matchTokens st [.leftParen] with
  | (true, st1) =>
    match parseFinishCall fuel st1 expr with
    | (.ok expr2, st2) => callLoop fuel st2 expr2
    | (.error e, st2) => (.error e, st2)
  | (false, st1) => (.ok expr, st1)

/-- `Parser::finish_call`. -/
def parseFinishCall : Nat → PState → Expr → Except PErr Expr × PState
| 0, st, _ => (.error .outOfFuel, st)
| fuel + 1, st, callee =>
  match
    (if check st .rightParen then (Except.ok ([] : List Expr), st)
     else argsLoop fuel st []) with
  | (.ok arguments, st1) =>
    match consume st1 .rightParen "Expect \x27)\x27 after arguments." with
    | (.ok paren, st2) => (.ok (.call callee paren arguments), st2)
    | (.error e, st2) => (.error e, st2)
  | (.error e, st1) => (.error e, st1)

/-- The argument loop of `finish_call`; the 255-argument check runs before
each argument is parsed. -/
def argsLoop : Nat → PState → List Expr → Except PErr (List Expr) × PState
| 0, st, _ => (.error .outOfFuel, st)
| fuel + 1, st, acc =>
  if 255 ≤ acc.length then
    (.error .mk, perror st (peek st) "Cannot have more than 255 arguments.")
  else
    match parseExpression fuel st with
    | (.ok e, st1) =>
      match matchTokens st1 [.comma] with
      | (true, st2) => argsLoop fuel st2 (acc ++ [e])
      | (false, st2) => (.ok (acc ++ [e]), st2)
    | (.error er, st1) => (.error er, st1)

/-- `Parser::primary`.  Note the token is peeked before matching, so the
`Number`/`String` arms capture that token's literal payload. -/
def parsePrimary : Nat → PState → Except PErr Expr × PState
| 0, st => (.error .outOfFuel, st)
| fuel + 1, st =>
  let token := peek st
  match matchTokens st [.falseT] with
  | (true, st1) => (.ok (.literal .falseT (.boolean false)), st1)
  | (false, st1) =>
    match matchTokens st1 [.trueT] with
    | (true, st2) => (.ok (.literal .trueT (.boolean true)), st2)
    | (false, st2) =>
      match matchTokens st2 [.nilT] with
      | (true, st3) => (.ok (.literal .nilT .nil), st3)
      | (false, st3) =>
        match matchTokens st3 [.number] with
        | (true, st4) => (.ok (.literal .number token.literal), st4)
        | (false, st4) =>
          match matchTokens st4 [.stringT] with
          | (true, st5) => (.ok (.literal .stringT token.literal), st5)
          | (false, st5) =>
            match matchTokens st5 [.identifier] with
            | (true, st6) => (.ok (.varE token), st6)
            | (false, st6) =>
              match matchTokens st6 [.leftParen] with
              | (true, st7) =>
                match parseExpression fuel st7 with
                | (.ok e, st8) =>
                  match consume st8 .rightParen
                      "Expect \x27)\x27 after expression." with
                  | (.ok _, st9) => (.ok (.grouping e), st9)
                  | (.error er, st9) => (.error er, st9)
                | (.error er, st8) => (.error er, st8)
              | (false, st7) =>
                (.error .mk, perror st7 (peek st7) "Expect expression.")

/-- `Parser::parse`'s top-level loop: collect declarations, synchronize on
error, remember whether any error occurred. -/
def parseLoop : Nat → PState → List Stmt → Bool → Except PErr (List Stmt) × PState
| 0, st, _, _ => (.error .outOfFuel, st)
| fuel + 1, st, acc, had_error =>
  if isAtEnd st then
    if had_error then (.error .mk, st) else (.ok acc, st)
  else
    match parseDeclaration fuel st with
    | (.ok s, st1) => parseLoop fuel st1 (acc ++ [s]) had_error
    | (.error _, st1) => parseLoop fuel (synchronize st1) acc true

end

/-- `Parser::new` + `Parser::parse` on a token stream. -/
def parse (fuel : Nat) (tokens : List Token) : Except PErr (List Stmt) × PState :=
  parseLoop fuel ⟨tokens, 0, []⟩ [] false

/-- Boolean `Ok`-test for `Except` results. -/
def exceptOk {ε α : Type} : Except ε α → Bool
| .ok _ => true
| .error _ => false

end Lox

namespace Lox

/-- `InterpreterErrorType` from `interpreter.rs`: fatal runtime error, or
the return-value control signal smuggled through the error channel. -/
inductive ErrType where
| fatalError
| returnValue (v : LoxValue)

/-- `InterpreterError` from `interpreter.rs`. -/
structure IError where
  final_token : Token
  message : String
  error_type : ErrType

/-- The result channel of `execute`/`evaluate`.  `ok`/`err` are the Rust
`Result` arms; `panicked` models a Rust `panic!` (process abort, nothing
catches it); `oot` is fuel exhaustion, modelling non-termination. -/
inductive Outcome (α : Type) where
| ok (a : α)
| err (e : IError)
| panicked (m : String)
| oot

/-- The `Interpreter` struct plus the ambient world: the frame arena, the
instance heap, the stdout/stderr transcripts and the value `clock()`
returns (the source reads the system time; the model carries it as
state). -/
structure InterpState where
  store : Store
  instances : List LoxInstance
  globalsId : Nat
  environment : Nat
  locals : List (Expr × Nat)
  output : List String
  errOutput : List String
  clockTime : Rat

/-- `Interpreter::is_truthy`. -/
def isTruthy : LoxValue → Bool
| .nil => false
| .boolean b => b
| _ => true

/-- `Interpreter::is_equal`.  Numbers are compared as exact rationals
(source: `f64` equality; the difference — NaN — is unreachable from the
programs considered here). -/
def isEqual : LoxValue → LoxValue → Bool
| .nil, .nil => true
| .number l, .number r => l == r
| .stringV l, .stringV r => l == r
| .boolean l, .boolean r => l == r
| _, _ => false

/-- The `{:?}` rendering of a `LoxValue` used inside error messages
(derived Debug in the source; approximated, no claim depends on it). -/
def debugValue : LoxValue → String
| .nil => "Nil"
| .boolean b => "Boolean(" ++ boolDisplay b ++ ")"
| .number n => "Number(" ++ ratDisplay n ++ ")"
| .stringV s => "String(" ++ s ++ ")"
| .callable c => "Callable(" ++ callableDisplay c ++ ")"
| .classV c => "Class(" ++ c.name ++ ")"
| .instanceV i => "Instance(" ++ toString i ++ ")"

/-- `Interpreter::not_a_number_error`. -/
def notANumberError (op : Token) (val : LoxValue) : IError :=
  ⟨op, op.token ++ " " ++ debugValue val ++ " must be a number.", .fatalError⟩

/-- `Interpreter::not_numbers_error`. -/
def notNumbersError (op : Token) (l r : LoxValue) : IError :=
  ⟨op, op.token ++ " " ++ debugValue l ++ " " ++ debugValue r ++
    " must be numbers.", .fatalError⟩

/-- `Interpreter::not_numbers_or_strings_error`. -/
def notNumbersOrStringsError (op : Token) (l r : LoxValue) : IError :=
  ⟨op, op.token ++ " " ++ debugValue l ++ " " ++ debugValue r ++
    " must be numbers or strings.", .fatalError⟩

/-- `visitLiteralExpr`: each stored primitive evaluates to itself as a
runtime value. -/
def primToLox : Prim → LoxValue
| .nil => .nil
| .boolean b => .boolean b
| .number n => .number n
| .str s => .stringV s

/-- The operator dispatch of `visitBinaryExpr`, after both operands have
been evaluated (that part of the source is pure).  `Slash` on rationals
differs from `f64` division only at division by zero, which no claim
exercises. -/
def binaryResult (op : Token) (left right : LoxValue) : Except IError LoxValue :=
  match op.token_type with
  | .plus =>
    match left, right with
    | .number l, .number r => .ok (.number (l + r))
    | .stringV l, .stringV r => .ok (.stringV (l ++ r))
    | _, _ => .error (notNumbersOrStringsError op left right)
  | .minus =>
    match left, right with
    | .number l, .number r => .ok (.number (l - r))
    | _, _ => .error (notNumbersError op left right)
  | .star =>
    match left, right with
    | .number l, .number r => .ok (.number (l * r))
    | _, _ => .error (notNumbersError op left right)
  | .slash =>
    match left, right with
    | .number l, .number r => .ok (.number (l / r))
    | _, _ => .error (notNumbersError op left right)
  | .bangEqual => .ok (.boolean (!isEqual left right))
  | .equalEqual => .ok (.boolean (isEqual left right))
  | .greater =>
    match left, right with
    | .number l, .number r => .ok (.boolean (decide (l > r)))
    | _, _ => .error (notNumbersError op left right)
  | .greaterEqual =>
    match left, right with
    | .number l, .number r => .ok (.boolean (decide (l ≥ r)))
    | _, _ => .error (notNumbersError op left right)
  | .less =>
    match left, right with
    | .number l, .number r => .ok (.boolean (decide (l < r)))
    | _, _ => .error (notNumbersError op left right)
  | .lessEqual =>
    match left, right with
    | .number l, .number r => .ok (.boolean (decide (l ≤ r)))
    | _, _ => .error (notNumbersError op left right)
  | _ => .ok .nil

/-- `LoxValue::as_callable`: only `Callable` and `Class` values are
callable. -/
def asCallable : LoxValue → Option Callable
| .callable c => some c
| .classV c => some (.klass c)
| _ => none

/-- `arity()` of each `LoxCallable` implementor. -/
def callableArity : Callable → Nat
| .clock => 0
| .func f => f.declaration.params.length
| .klass c =>
  match lookupVals c.methods "init" with
  | some m => m.declaration.params.length
  | none => 0

/-- Dereference an arena handle.  `Rc` handles held by the interpreter are
always valid, so the fallback frame is unreachable. -/
def frameAt (σ : Store) (fid : Nat) : Frame := (σ.get? fid).getD ⟨[], none⟩

/-- Allocate a fresh frame (`Rc::new(RefCell::new(..))`): its handle is
the previous arena length, distinct from every live handle. -/
def allocFrame (σ : Store) (fr : Frame) : Store × Nat := (σ ++ [fr], σ.length)

/-- Update one slot of a `Nat`-indexed arena. -/
def listUpdate {α : Type} : List α → Nat → (α → α) → List α
| [], _, _ => []
| x :: rest, 0, f => f x :: rest
| x :: rest, n + 1, f => x :: listUpdate rest n f

/-- Allocate a fresh instance on the instance heap. -/
def allocInstance (insts : List LoxInstance) (i : LoxInstance) :
    List LoxInstance × Nat := (insts ++ [i], insts.length)

/-- `LoxInstance::set`: insert into the instance's property map through
its `RefCell`. -/
def instanceSet (st : InterpState) (iid : Nat) (name : String) (v : LoxValue) :
    InterpState :=
  let upd := fun inst =>
    { inst with properties := insertVal inst.properties name v }
  { st with instances := listUpdate st.instances iid upd }

/-- `LoxFunction::bind`: a fresh frame holding only `this`, enclosing the
method's closure; the bound method keeps declaration and flag. -/
def bindFun (st : InterpState) (m : LoxFunction) (iid : Nat) :
    InterpState × LoxFunction :=
  let (σ, fid) := allocFrame st.store ⟨[("this", .instanceV iid)], some m.closure⟩
  ({ st with store := σ }, ⟨m.declaration, fid, m.is_initializer⟩)

/-- `LoxInstance::get`: properties first, then class methods (bound to the
instance, which allocates the `this` frame). -/
def instanceGet (st : InterpState) (iid : Nat) (name : String) :
    Except String LoxValue × InterpState :=
  match st.instances.get? iid with
  | some inst =>
    match lookupVals inst.properties name with
    | some v => (.ok v, st)
    | none =>
      match lookupVals inst.cls.methods name with
      | some m =>
        let (st1, bound) := bindFun st m iid
        (.ok (.callable (.func bound)), st1)
      | none => (.error ("Undefined property " ++ "\x27" ++ name ++ "\x27."), st)
  | none => (.error ("Undefined property " ++ "\x27" ++ name ++ "\x27."), st)

/-- `Interpreter::look_up_variable`: a recorded distance routes through
`get_at` from the current environment, otherwise the globals frame is
searched with `get`. -/
def lookupVariable (st : InterpState) (name : Token) (key : Expr) :
    Except IError LoxValue :=
  match localsLookup st.locals key with
  | some d =>
    match get_at st.store (frameAt st.store st.environment) d name.token with
    | .ok v => .ok v
    | .error msg => .error ⟨name, msg, .fatalError⟩
  | none =>
    match envGet st.store st.globalsId name.token with
    | .ok v => .ok v
    | .error msg => .error ⟨name, msg, .fatalError⟩

/-- The method-table construction in `visitClassStmt`: every method —
including one named `init` — is wrapped with `is_initializer = false`. -/
def buildMethodsGo (env : Nat) (acc : List (String × LoxFunction)) :
    List FunStmt → List (String × LoxFunction)
| [] => acc
| m :: rest => buildMethodsGo env (insertVal acc m.name.token ⟨m, env, false⟩) rest

/-- Parameter binding in `LoxFunction::call`: parameters are defined in
order from `arguments[i]`; a too-short argument vector would make the Rust
code panic on indexing (`none` here), and extra arguments are ignored. -/
def paramsBindGo (acc : List (String × LoxValue)) :
    List Token → List LoxValue → Option (List (String × LoxValue))
| [], _ => some acc
| p :: ps, a :: rest => paramsBindGo (insertVal acc p.token a) ps rest
| _ :: _, [] => none

mutual

/-- `Interpreter::evaluate`: dispatch plus each `visit*Expr` body. -/
def evaluate : Nat → InterpState → Expr → Outcome LoxValue × InterpState
| 0, st, _ => (.oot, st)
| fuel + 1, st, e =>
  match e with
  | .literal _ lit => (.ok (primToLox lit), st)
  | .grouping inner => evaluate fuel st inner
  | .unary op right =>
    match evaluate fuel st right with
    | (.ok v, st1) =>
      match op.token_type with
      | .minus =>
        match v with
        | .number n => (.ok (.number (-n)), st1)
        | _ => (.err (notANumberError op v), st1)
      | .bang => (.ok (.boolean (!isTruthy v)), st1)
      | _ => (.ok .nil, st1)
    | (.err er, st1) => (.err er, st1)
    | (.panicked m, st1) => (.panicked m, st1)
    | (.oot, st1) => (.oot, st1)
  | .binary l op r =>
    match evaluate fuel st l with
    | (.ok lv, st1) =>
      match evaluate fuel st1 r with
      | (.ok rv, st2) =>
        match binaryResult op lv rv with
        | .ok v => (.ok v, st2)
        | .error er => (.err er, st2)
      | (.err er, st2) => (.err er, st2)
      | (.panicked m, st2) => (.panicked m, st2)
      | (.oot, st2) => (.oot, st2)
    | (.err er, st1) => (.err er, st1)
    | (.panicked m, st1) => (.panicked m, st1)
    | (.oot, st1) => (.oot, st1)
  | .call callee paren args =>
    match evaluate fuel st callee with
    | (.ok v, st1) =>
      match evalArgs fuel st1 args with
      | (.ok vs, st2) =>
        match asCallable v with
        | some c =>
          if vs.length ≠ callableArity c then
            (.err ⟨paren, "Expected " ++ toString (callableArity c) ++
              " arguments but got " ++ toString vs.length ++ ".",
              .fatalError⟩, st2)
          else callCallable fuel st2 c vs
        | none =>
          (.err ⟨paren, displayValue st2.instances v ++ " is not callable.",
            .fatalError⟩, st2)
      | (.err er, st2) => (.err er, st2)
      | (.panicked m, st2) => (.panicked m, st2)
      | (.oot, st2) => (.oot, st2)
    | (.err er, st1) => (.err er, st1)
    | (.panicked m, st1) => (.panicked m, st1)
    | (.oot, st1) => (.oot, st1)
  | .get obj name =>
    match evaluate fuel st obj with
    | (.ok v, st1) =>
      match v with
      | .instanceV iid =>
        match instanceGet st1 iid name.token with
        | (.ok value, st2) => (.ok value, st2)
        | (.error msg, st2) => (.err ⟨name, msg, .fatalError⟩, st2)
      | _ =>
        (.err ⟨name, displayValue st1.instances v ++ " is not an instance.",
          .fatalError⟩, st1)
    | (.err er, st1) => (.err er, st1)
    | (.panicked m, st1) => (.panicked m, st1)
    | (.oot, st1) => (.oot, st1)
  | .set obj name value =>
    match evaluate fuel st obj with
    | (.ok o, st1) =>
      match o with
      | .instanceV iid =>
        match evaluate fuel st1 value with
        | (.ok v, st2) => (.ok v, instanceSet st2 iid name.token v)
        | (.err er, st2) => (.err er, st2)
        | (.panicked m, st2) => (.panicked m, st2)
        | (.oot, st2) => (.oot, st2)
      | _ =>
        (.err ⟨name, displayValue st1.instances o ++ " is not an instance.",
          .fatalError⟩, st1)
    | (.err er, st1) => (.err er, st1)
    | (.panicked m, st1) => (.panicked m, st1)
    | (.oot, st1) => (.oot, st1)
  | .varE name =>
    match lookupVariable st name (.varE name) with
    | .ok v => (.ok v, st)
    | .error er => (.err er, st)
  | .assign name value =>
    match evaluate fuel st value with
    | (.ok v, st1) =>
      match localsLookup st1.locals (.assign name value) with
      | some d =>
        match assign_at st1.store (frameAt st1.store st1.environment) d
            name.token v with
        | (.ok _, σ) => (.ok v, { st1 with store := σ })
        | (.error msg, σ) =>
          (.err ⟨name, msg, .fatalError⟩, { st1 with store := σ })
      | none =>
        match envAssign st1.store st1.globalsId name.token v with
        | (.ok _, σ) => (.ok v, { st1 with store := σ })
        | (.error msg, σ) =>
          (.err ⟨name, msg, .fatalError⟩, { st1 with store := σ })
    | (.err er, st1) => (.err er, st1)
    | (.panicked m, st1) => (.panicked m, st1)
    | (.oot, st1) => (.oot, st1)
  | .logical l op r =>
    match evaluate fuel st l with
    | (.ok lv, st1) =>
      if op.token_type == .orT then
        if isTruthy lv then (.ok lv, st1) else evaluate fuel st1 r
      else
        if !isTruthy lv then (.ok lv, st1) else evaluate fuel st1 r
    | (.err er, st1) => (.err er, st1)
    | (.panicked m, st1) => (.panicked m, st1)
    | (.oot, st1) => (.oot, st1)
  | .thisE kw =>
    match lookupVariable st kw (.thisE kw) with
    | .ok v => (.ok v, st)
    | .error er => (.err er, st)

/-- The argument loop of `visitCallExpr`: strict left-to-right evaluation,
aborting on the first error. -/
def evalArgs : Nat → InterpState → List Expr → Outcome (List LoxValue) × InterpState
| 0, st, _ => (.oot, st)
| _ + 1, st, [] => (.ok [], st)
| fuel + 1, st, a :: rest =>
  match evaluate fuel st a with
  | (.ok v, st1) =>
    match evalArgs fuel st1 rest with
    | (.ok vs, st2) => (.ok (v :: vs), st2)
    | (.err er, st2) => (.err er, st2)
    | (.panicked m, st2) => (.panicked m, st2)
    | (.oot, st2) => (.oot, st2)
  | (.err er, st1) => (.err er, st1)
  | (.panicked m, st1) => (.panicked m, st1)
  | (.oot, st1) => (.oot, st1)

/-- `Interpreter::execute`: dispatch plus each `visit*Stmt` body. -/
def execute : Nat → InterpState → Stmt → Outcome Unit × InterpState
| 0, st, _ => (.oot, st)
| fuel + 1, st, stmt =>
  match stmt with
  | .block stmts => executeBlock fuel st stmts st.environment
  | .expression e =>
    match evaluate fuel st e with
    | (.ok _, st1) => (.ok (), st1)
    | (.err er, st1) => (.err er, st1)
    | (.panicked m, st1) => (.panicked m, st1)
    | (.oot, st1) => (.oot, st1)
  | .print e =>
    match evaluate fuel st e with
    | (.ok v, st1) =>
      (.ok (), { st1 with output := st1.output ++ [displayValue st1.instances v] })
    | (.err er, st1) => (.err er, st1)
    | (.panicked m, st1) => (.panicked m, st1)
    | (.oot, st1) => (.oot, st1)
  | .ret kw value =>
    match value with
    | some e =>
      match evaluate fuel st e with
      | (.ok v, st1) =>
        (.err ⟨kw, "Return value: " ++ debugValue v, .returnValue v⟩, st1)
      | (.err er, st1) => (.err er, st1)
      | (.panicked m, st1) => (.panicked m, st1)
      | (.oot, st1) => (.oot, st1)
    | none =>
      (.err ⟨kw, "Return value: " ++ debugValue .nil, .returnValue .nil⟩, st)
  | .varS name initializer =>
    match initializer with
    | some init =>
      match evaluate fuel st init with
      | (.ok v, st1) =>
        (.ok (), { st1 with
          store := envDefine st1.store st1.environment name.token v })
      | (.err er, st1) => (.err er, st1)
      | (.panicked m, st1) => (.panicked m, st1)
      | (.oot, st1) => (.oot, st1)
    | none =>
      (.ok (), { st with
        store := envDefine st.store st.environment name.token .nil })
  | .funS f =>
    (.ok (), { st with
      store := envDefine st.store st.environment f.name.token
        (.callable (.func ⟨f, st.environment, false⟩)) })
  | .ifS c t e =>
    match evaluate fuel st c with
    | (.ok v, st1) =>
      if isTruthy v then execute fuel st1 t
      else
        match e with
        | some els => execute fuel st1 els
        | none => (.ok (), st1)
    | (.err er, st1) => (.err er, st1)
    | (.panicked m, st1) => (.panicked m, st1)
    | (.oot, st1) => (.oot, st1)
  | .whileS c b => whileLoop fuel st c b
  | .forS initializer c inc b =>
    match initializer with
    | some init =>
      match execute fuel st init with
      | (.ok _, st1) => forLoop fuel st1 c inc b
      | (.err er, st1) => (.err er, st1)
      | (.panicked m, st1) => (.panicked m, st1)
      | (.oot, st1) => (.oot, st1)
    | none => forLoop fuel st c inc b
  | .classS name _superclass methods =>
    let st1 := { st with
      store := envDefine st.store st.environment name.token .nil }
    let klass := LoxValue.classV ⟨name.token, buildMethodsGo st1.environment [] methods⟩
    match envAssign st1.store st1.environment name.token klass with
    | (.ok _, σ) => (.ok (), { st1 with store := σ })
    | (.error msg, σ) => (.err ⟨name, msg, .fatalError⟩, { st1 with store := σ })

/-- `Interpreter::execute_block`: remember the previous environment, enter
a fresh child frame of `env`, run the statements, and restore. -/
def executeBlock : Nat → InterpState → List Stmt → Nat → Outcome Unit × InterpState
| 0, st, _, _ => (.oot, st)
| fuel + 1, st, stmts, env =>
  let prev := st.environment
  let (σ, fid) := allocFrame st.store ⟨[], some env⟩
  blockLoop fuel { st with store := σ, environment := fid } stmts prev

/-- The statement loop of `execute_block`: on `Err` the previous
environment is restored before propagating; after a normal run it is
restored as well.  A panic unwinds the whole process, so nothing is
restored on that path. -/
def blockLoop : Nat → InterpState → List Stmt → Nat → Outcome Unit × InterpState
| 0, st, _, _ => (.oot, st)
| _ + 1, st, [], prev => (.ok (), { st with environment := prev })
| fuel + 1, st, s :: rest, prev =>
  match execute fuel st s with
  | (.ok _, st1) => blockLoop fuel st1 rest prev
  | (.err er, st1) => (.err er, { st1 with environment := prev })
  | (.panicked m, st1) => (.panicked m, st1)
  | (.oot, st1) => (.oot, st1)

/-- `visitWhileStmt`'s loop. -/
def whileLoop : Nat → InterpState → Expr → Stmt → Outcome Unit × InterpState
| 0, st, _, _ => (.oot, st)
| fuel + 1, st, c, b =>
  match evaluate fuel st c with
  | (.ok v, st1) =>
    if isTruthy v then
      match execute fuel st1 b with
      | (.ok _, st2) => whileLoop fuel st2 c b
      | (.err er, st2) => (.err er, st2)
      | (.panicked m, st2) => (.panicked m, st2)
      | (.oot, st2) => (.oot, st2)
    else (.ok (), st1)
  | (.err er, st1) => (.err er, st1)
  | (.panicked m, st1) => (.panicked m, st1)
  | (.oot, st1) => (.oot, st1)

/-- `visitForStmt`'s loop condition: an absent condition counts as true
(this is the evaluator's own `For` arm, reachable only for `For` nodes,
which the parser never produces). -/
def forLoop : Nat → InterpState → Option Expr → Option Expr → Stmt →
    Outcome Unit × InterpState
| 0, st, _, _, _ => (.oot, st)
| fuel + 1, st, c, inc, b =>
  match c with
  | some ce =>
    match evaluate fuel st ce with
    | (.ok v, st1) =>
      if isTruthy v then forStep fuel st1 c inc b else (.ok (), st1)
    | (.err er, st1) => (.err er, st1)
    | (.panicked m, st1) => (.panicked m, st1)
    | (.oot, st1) => (.oot, st1)
  | none => forStep fuel st c inc b

/-- `visitForStmt`'s loop body: body, then increment, then repeat. -/
def forStep : Nat → InterpState → Option Expr → Option Expr → Stmt →
    Outcome Unit × InterpState
| 0, st, _, _, _ => (.oot, st)
| fuel + 1, st, c, inc, b =>
  match execute fuel st b with
  | (.ok _, st1) =>
    match inc with
    | some ie =>
      match evaluate fuel st1 ie with
      | (.ok _, st2) => forLoop fuel st2 c inc b
      | (.err er, st2) => (.err er, st2)
      | (.panicked m, st2) => (.panicked m, st2)
      | (.oot, st2) => (.oot, st2)
    | none => forLoop fuel st1 c inc b
  | (.err er, st1) => (.err er, st1)
  | (.panicked m, st1) => (.panicked m, st1)
  | (.oot, st1) => (.oot, st1)

/-- The `call` methods of the three `LoxCallable` implementors.
`ClockCallable` returns the ambient time; `LoxFunction::call` binds
parameters, runs the body through `execute_block`, catches the
return-value signal, and **panics** on a fatal runtime error inside the
body; `LoxClass::call` allocates the instance, runs a bound `init` if
present discarding its result, and returns the instance. -/
def callCallable : Nat → InterpState → Callable → List LoxValue →
    Outcome LoxValue × InterpState
| 0, st, _, _ => (.oot, st)
| fuel + 1, st, c, args =>
  match c with
  | .clock => (.ok (.number st.clockTime), st)
  | .func f =>
    match paramsBindGo [] f.declaration.params args with
    | some bindings =>
      let (σ, fid) := allocFrame st.store ⟨bindings, some f.closure⟩
      match executeBlock fuel { st with store := σ } f.declaration.body fid with
      | (.ok _, st2) =>
        if f.is_initializer then
          match get_at st2.store (frameAt st2.store f.closure) 0 "this" with
          | .ok v => (.ok v, st2)
          | .error _ =>
            (.panicked "Error: \x27this\x27 not found in closure.", st2)
        else (.ok .nil, st2)
      | (.err er, st2) =>
        match er.error_type with
        | .returnValue v =>
          if f.is_initializer then
            match get_at st2.store (frameAt st2.store f.closure) 0 "this" with
            | .ok tv => (.ok tv, st2)
            | .error _ =>
              (.panicked "Error: \x27this\x27 not found in closure.", st2)
          else (.ok v, st2)
        | .fatalError =>
          (.panicked ("Error in function call: " ++ er.message), st2)
      | (.panicked m, st2) => (.panicked m, st2)
      | (.oot, st2) => (.oot, st2)
    | none => (.panicked "index out of bounds", st)
  | .klass c0 =>
    let (insts, iid) := allocInstance st.instances ⟨c0, []⟩
    let st1 := { st with instances := insts }
    match lookupVals c0.methods "init" with
    | some m =>
      let (st2, bound) := bindFun st1 m iid
      match callCallable fuel st2 (.func bound) args with
      | (.ok _, st3) => (.ok (.instanceV iid), st3)
      | (.err er, st3) => (.err er, st3)
      | (.panicked mm, st3) => (.panicked mm, st3)
      | (.oot, st3) => (.oot, st3)
    | none => (.ok (.instanceV iid), st1)

end

/-- `InterpreterError::print` as it lands on stderr. -/
def errPrint (e : IError) : String :=
  "Error at token: " ++ tokenDisplay e.final_token ++ ". INFO: " ++
    e.message ++ " "

/-- `Interpreter::interpret`: execute each top-level statement; a
statement `Err` is printed and the loop goes on; a panic kills the
process (second component of the result). -/
def interpret (fuel : Nat) (st : InterpState) :
    List Stmt → InterpState × Option String
| [] => (st, none)
| s :: rest =>
  match execute fuel st s with
  | (.ok _, st1) => interpret fuel st1 rest
  | (.err er, st1) =>
    interpret fuel { st1 with errOutput := st1.errOutput ++ [errPrint er] } rest
  | (.panicked m, st1) => (st1, some m)
  | (.oot, st1) => (st1, some "out of fuel")

/-- `Interpreter::new` with the resolver's side table installed
(`main.rs` shares one interpreter between resolver and evaluation):
globals hold the single `clock` built-in. -/
def initState (locals : List (Expr × Nat)) : InterpState :=
  { store := [⟨[("clock", .callable .clock)], none⟩]
  , instances := []
  , globalsId := 0
  , environment := 0
  , locals := locals
  , output := []
  , errOutput := []
  , clockTime := 0 }

/-- The observable outcome of `run` (`main.rs`) from a parsed program
onward: resolver panic (process abort, nothing interpreted), interpreter
panic, or a completed run with the transcripts. -/
inductive RunResult where
| resolverPanicked (m : String)
| interpreterPanicked (m : String) (resolveDiags stdout stderrLines : List String)
| ran (resolveDiags stdout stderrLines : List String)

/-- `run` from `main.rs`, after a successful parse: resolve (sharing the
interpreter's `locals`), then interpret unconditionally — no flag gates
evaluation on resolver diagnostics. -/
def runProgram (fuel : Nat) (stmts : List Stmt) : RunResult :=
  match resolveProgram fuel stmts with
  | .error (.panicked m) => .resolverPanicked m
  | .error .outOfFuel => .resolverPanicked "resolver out of fuel"
  | .ok rst =>
    match interpret fuel (initState rst.locals) stmts with
    | (st, some m) => .interpreterPanicked m rst.diags st.output st.errOutput
    | (st, none) => .ran rst.diags st.output st.errOutput

/-- Projection: stdout transcript of a run. -/
def RunResult.stdout : RunResult → List String
| .resolverPanicked _ => []
| .interpreterPanicked _ _ out _ => out
| .ran _ out _ => out

/-- Projection: resolver diagnostics of a run. -/
def RunResult.resolveDiags : RunResult → List String
| .resolverPanicked _ => []
| .interpreterPanicked _ d _ _ => d
| .ran d _ _ => d

/-- Projection: did the run complete without a panic? -/
def RunResult.completed : RunResult → Bool
| .ran _ _ _ => true
| _ => false

end Lox

namespace Lox

/-- The full `run` of `main.rs`: parse, and only on `Ok` resolve and
interpret (a parse `Err` just prints "parser error!"). -/
inductive FullResult where
| parserFailed (diags : List String)
| completedRun (r : RunResult)

/-- `run` from `main.rs` on a token stream. -/
def runTokens (fuel : Nat) (tokens : List Token) : FullResult :=
  match parse fuel tokens with
  | (.ok stmts, _) => .completedRun (runProgram fuel stmts)
  | (.error _, ps) => .parserFailed ps.diags

/-- Does this outcome model a process abort (panic) or fuel exhaustion
(non-termination)?  Both are the non-exit paths of the Rust program. -/
def Outcome.aborts {α : Type} : Outcome α → Bool
| .panicked _ => true
| .oot => true
| _ => false

/-- The side table a resolver run produced (empty if it panicked). -/
def resolvedLocals (r : Except RPanic RState) : List (Expr × Nat) :=
  match r with
  | .ok rst => rst.locals
  | .error _ => []

/-- An identifier token on line 1, as the lexer builds it. -/
def idTok (s : String) : Token := ⟨.identifier, s, .nil, 1⟩

/-- A keyword or punctuation token on line 1. -/
def kwTok (tt : TokenType) (s : String) : Token := ⟨tt, s, .nil, 1⟩

/-- A number token on line 1 with its literal payload. -/
def numTok (s : String) (n : Rat) : Token := ⟨.number, s, .number n, 1⟩

/-- The `Eof` sentinel the lexer appends. -/
def eofTok : Token := ⟨.eof, "", .nil, 1⟩

/-- A number literal expression as `primary` builds it. -/
def numLit (n : Rat) : Expr := .literal .number (.number n)

/-- Token stream of `{ var n = 1; { n = 2; print n; } }` — an inner-block
assignment to a captured outer variable followed by a read. -/
def p1Tokens : List Token :=
  [kwTok .leftBrace "\x7b", kwTok .varT "var", idTok "n", kwTok .equal "=",
   numTok "1" 1, kwTok .semicolon ";",
   kwTok .leftBrace "\x7b", idTok "n", kwTok .equal "=", numTok "2" 2,
   kwTok .semicolon ";", kwTok .printT "print", idTok "n", kwTok .semicolon ";",
   kwTok .rightBrace "\x7d", kwTok .rightBrace "\x7d", eofTok]

/-- A two-frame arena: frame 0 holds `x = 1`, frame 1 is its child. -/
def sigma0 : Store := [⟨[("x", .number 1)], none⟩, ⟨[], some 0⟩]

/-- The child frame of `sigma0` (the frame a `borrow()` of its `Rc` would
see). -/
def fr1 : Frame := ⟨[], some 0⟩

/-- The token of the identifier `x`, line 1 — both occurrence sites in
`p2Prog` carry this same token, so the two `Variable` expressions are
structurally equal. -/
def xTok : Token := idTok "x"

/-- `{ var x = 1; x; { x; } }`: two syntactically identical reads of `x`
at scope distances 0 and 1. -/
def p2Prog : List Stmt :=
  [.block [.varS xTok (some (numLit 1)), .expression (.varE xTok),
           .block [.expression (.varE xTok)]]]

/-- The same program cut after the first read: isolates the distance the
resolver computes for the first site. -/
def p2Prefix : List Stmt :=
  [.block [.varS xTok (some (numLit 1)), .expression (.varE xTok)]]

/-- Token stream of `fun f() { return; }` — a `returnStmt` inside a
function body. -/
def t3a : List Token :=
  [kwTok .funT "fun", idTok "f", kwTok .leftParen "(", kwTok .rightParen ")",
   kwTok .leftBrace "\x7b", kwTok .returnT "return", kwTok .semicolon ";",
   kwTok .rightBrace "\x7d", eofTok]

/-- Token stream of `class A {}` — a `classDecl` with no methods. -/
def t3b : List Token :=
  [kwTok .classT "class", idTok "A", kwTok .leftBrace "\x7b",
   kwTok .rightBrace "\x7d", eofTok]

/-- Token stream of `for (;;) print 1;` — all three clauses absent. -/
def t4 : List Token :=
  [kwTok .forT "for", kwTok .leftParen "(", kwTok .semicolon ";",
   kwTok .semicolon ";", kwTok .rightParen ")", kwTok .printT "print",
   numTok "1" 1, kwTok .semicolon ";", eofTok]

/-- Token stream of `1 = 2;` — an invalid assignment target. -/
def t5 : List Token :=
  [numTok "1" 1, kwTok .equal "=", numTok "2" 2, kwTok .semicolon ";", eofTok]

/-- The `return` keyword token. -/
def retTok : Token := kwTok .returnT "return"

/-- `return 1;` at top level. -/
def p6a : List Stmt := [.ret retTok (some (numLit 1))]

/-- The token of the identifier `a`. -/
def aTok : Token := idTok "a"

/-- `{ var a = a; } print 1;` — a read-in-own-initializer resolve
diagnostic followed by an observable statement. -/
def p6b : List Stmt :=
  [.block [.varS aTok (some (.varE aTok))], .print (numLit 1)]

/-- `init() {}` — an initializer with empty body. -/
def initFun : FunStmt := .mk (idTok "init") [] []

/-- A closing-paren token (the `paren` field of call expressions). -/
def parenTok : Token := kwTok .rightParen ")"

/-- `class A { init() {} } var a = A(); print a.init();` as an AST (the
parser cannot produce class statements, so the tree is built directly;
resolver and evaluator handle it). -/
def p7 : List Stmt :=
  [.classS (idTok "A") none [initFun],
   .varS (idTok "a") (some (.call (.varE (idTok "A")) parenTok [])),
   .print (.call (.get (.varE (idTok "a")) (idTok "init")) parenTok [])]

/-- The token of the global `clock`. -/
def clockTok : Token := idTok "clock"

/-- A state whose globals bind `a` to instance 0 of a field-less class
`A` — a minimal state on which a `Set` expression can run. -/
def witState : InterpState :=
  { initState [] with
    store := [⟨[("clock", .callable .clock), ("a", .instanceV 0)], none⟩]
    instances := [⟨⟨"A", []⟩, []⟩] }

/-- `witState` after storing `f = 3` on instance 0. -/
def witStateAfter : InterpState := instanceSet witState 0 "f" (.number 3)

end Lox


namespace Lox

/-- A state in which a bound `init` can be invoked directly: the globals
frame, a `this` frame (the one `LoxFunction::bind` would create) whose
`this` is instance 0 of class `A`, and that instance on the heap.  The
method table entry carries `is_initializer = false`, exactly as
`visitClassStmt` builds it. -/
def initClosureState : InterpState :=
  { initState [] with
    store := [⟨[("clock", .callable .clock)], none⟩,
              ⟨[("this", .instanceV 0)], some 0⟩]
    instances := [⟨⟨"A", [("init", ⟨initFun, 1, false⟩)]⟩, []⟩] }

/-- `a.init` as `visitGetExpr` produces it: `LoxInstance::get` finds the
method and binds it, allocating one more `this` frame. -/
def c7Bound : Except String LoxValue × InterpState :=
  instanceGet initClosureState 0 "init"

end Lox

namespace Lox

set_option maxHeartbeats 1000000 in
/-- C1: refuted as stated.  `assign_at` reports success but the write
lands in the detached clone built by `ancestor`, so the arena is returned
unchanged — in every case (third conjunct) — and a subsequent `get_at`
from the same environment still sees the old binding (second conjunct).
End to end, `{ var n = 1; { n = 2; print n; } }` prints `1` instead of
`2` (fourth conjunct): a mutation of a captured variable is **not**
visible to later reads through the shared frame. -/
theorem c1_assign_at_write_lost :
    assign_at sigma0 fr1 1 "x" (.number 2) = (.ok (), sigma0) ∧
    get_at (assign_at sigma0 fr1 1 "x" (.number 2)).2 fr1 1 "x" =
      .ok (.number 1) ∧
    (∀ (σ : Store) (fr : Frame) (d : Nat) (name : String) (v : LoxValue),
      (assign_at σ fr d name v).2 = σ) ∧
    runTokens 25 p1Tokens = .completedRun (.ran [] ["1"] []) := by
  refine ⟨rfl, rfl, ?_, rfl⟩
  intro σ fr d name v
  unfold assign_at
  split
  · split <;> rfl
  · rfl

set_option maxHeartbeats 1000000 in
/-- C2: refuted as stated.  The side table is keyed by the derived
structural equality of `Expr`, so the two syntactically identical reads
of `x` in `{ var x = 1; x; { x; } }` collide on one key: the finished
table holds a single entry (distance 1, the second site's), although the
first site's own distance is 0 (shown by resolving the prefix program),
and the evaluator's lookup returns 1 for both sites. -/
theorem c2_locals_table_keyed_structurally :
    resolvedLocals (resolveProgram 25 p2Prog) = [(.varE xTok, 1)] ∧
    (resolvedLocals (resolveProgram 25 p2Prog)).length = 1 ∧
    resolvedLocals (resolveProgram 25 p2Prefix) = [(.varE xTok, 0)] ∧
    localsLookup (resolvedLocals (resolveProgram 25 p2Prog)) (.varE xTok) =
      some 1 :=
  ⟨rfl, rfl, rfl, rfl⟩

set_option maxHeartbeats 1000000 in
/-- C3: refuted as stated.  `declaration` has no `class` branch and
`statement` has no `return` branch, so both `fun f() { return; }` and
`class A {}` fall through to `primary`, which reports "Expect
expression." — the parser returns `Err` instead of producing `Return` or
`Class` nodes. -/
theorem c3_parser_rejects_return_and_class :
    (parse 25 t3a).1 = .error .mk ∧
    (parse 25 t3a).2.diags =
      ["[line 1] Error  at \x27return\x27: Expect expression.",
       "[line 1] Error  at \x27\x7d\x27: Expect expression."] ∧
    (parse 25 t3b).1 = .error .mk ∧
    (parse 25 t3b).2.diags =
      ["[line 1] Error  at \x27class\x27: Expect expression."] :=
  ⟨rfl, rfl, rfl, rfl⟩

set_option maxHeartbeats 1000000 in
/-- C4: refuted as stated.  The parse-time desugaring replaces an absent
condition by a `Nil` literal, not by `true`: `for (;;) print 1;` parses
to `while (nil) print 1;`, `nil` is falsy, and running the program prints
nothing and terminates — the body is never entered. -/
theorem c4_for_desugar_condition_nil :
    (parse 25 t4).1 =
      .ok [.whileS (.literal .nilT .nil)
             (.print (.literal .number (.number 1)))] ∧
    isTruthy (primToLox .nil) = false ∧
    runTokens 25 t4 = .completedRun (.ran [] [] []) :=
  ⟨rfl, rfl, rfl⟩

set_option maxHeartbeats 1000000 in
/-- C5: refuted as stated.  On `1 = 2;` the parser reports the "Invalid
assignment target." diagnostic but discards the `ParserError` value, so
no had-error flag is set: `parse` returns `Ok` with the partial tree
`[1;]` even though a diagnostic was emitted. -/
theorem c5_invalid_assignment_target_parse_ok :
    (parse 25 t5).1 = .ok [.expression (.literal .number (.number 1))] ∧
    (parse 25 t5).2.diags =
      ["[line 1] Error  at \x27=\x27: Invalid assignment target."] :=
  ⟨rfl, rfl⟩

set_option maxHeartbeats 1000000 in
/-- C6: refuted as stated.  A top-level `return 1;` makes the resolver
`panic!` — resolution itself aborts the process (first conjunct), so no
diagnostic is accumulated and no exit-65 path runs.  And for the
non-panicking diagnostic (`var a = a;` in a block), `run` interprets the
program anyway: the diagnostic is present, yet the evaluator runs and the
following `print 1;` writes `1` to stdout (second conjunct). -/
theorem c6_resolver_panics_and_does_not_gate :
    resolveProgram 25 p6a =
      .error (.panicked "Error: Can\x27t return from top-level code.") ∧
    runProgram 25 p6b =
      .ran ["Can\x27t read local variable a in its own initializer."] ["1"]
        ["Error at token: TOKEN_TYPE: Identifier, TOKEN: a, LINE: 1. INFO: Undefined variable \x27a\x27. "] :=
  ⟨rfl, rfl⟩

set_option maxHeartbeats 1000000 in
/-- C7: refuted as stated.  `visitClassStmt` builds every method —
including `init` — with `is_initializer = false` (first conjunct), so the
bound `instance.init` that `Get` produces carries a false flag (second
conjunct), and invoking it on an empty body yields `nil` (third
conjunct) instead of the bound instance — which is exactly what the same
invocation returns once the flag is set (fourth conjunct). -/
theorem c7_init_not_flagged_returns_nil :
    buildMethodsGo 0 [] [initFun] = [("init", ⟨initFun, 0, false⟩)] ∧
    c7Bound.1 = .ok (.callable (.func ⟨initFun, 2, false⟩)) ∧
    (callCallable 6 c7Bound.2 (.func ⟨initFun, 2, false⟩) []).1 = .ok .nil ∧
    (callCallable 6 c7Bound.2 (.func ⟨initFun, 2, true⟩) []).1 =
      .ok (.instanceV 0) :=
  ⟨rfl, rfl, rfl, rfl⟩

/-- The statement loop of `execute_block` restores the saved environment
on both of its exit paths (normal completion and a propagated `Err`,
which includes return-unwinds); only a panic or non-termination escapes
without restoring. -/
theorem blockLoop_env (fuel : Nat) :
    ∀ (st : InterpState) (stmts : List Stmt) (prev : Nat),
      (blockLoop fuel st stmts prev).1.aborts = false →
      (blockLoop fuel st stmts prev).2.environment = prev := by
  induction fuel with
  | zero =>
    intro st stmts prev h
    simp [blockLoop, Outcome.aborts] at h
  | succ n ih =>
    intro st stmts prev h
    cases stmts with
    | nil => rfl
    | cons s rest =>
      rw [blockLoop] at h ⊢
      split at h <;> rename_i heq
      · exact ih _ rest prev h
      · rfl
      · simp [Outcome.aborts] at h
      · simp [Outcome.aborts] at h

/-- C8: confirmed.  `execute_block` first binds the current environment
to a freshly allocated child frame of `env` (handle `st.store.length`,
not an index of any existing frame; first conjunct exhibits this), and on
every exit path that the Rust function returns through — normal
completion, a propagated runtime error, or a return-unwind, which
travels the same `Err` channel — the interpreter's environment is
restored to the handle (reference) it held before the block (second
conjunct). -/
theorem c8_block_restores_environment (fuel : Nat) (st : InterpState)
    (stmts : List Stmt) (env : Nat) :
    executeBlock (fuel + 1) st stmts env =
      blockLoop fuel
        { st with store := st.store ++ [⟨[], some env⟩],
                  environment := st.store.length }
        stmts st.environment ∧
    ((executeBlock (fuel + 1) st stmts env).1.aborts = false →
      (executeBlock (fuel + 1) st stmts env).2.environment =
        st.environment) := by
  constructor
  · rfl
  · intro h
    exact blockLoop_env fuel _ stmts st.environment h

/-- Witness for C8 at a concrete block and state: the empty block run in
the initial interpreter state does not abort and hands back the starting
environment handle. -/
theorem c8_witness :
    (executeBlock 3 (initState []) [] 0).2.environment =
      (initState []).environment :=
  (c8_block_restores_environment 2 (initState []) [] 0).2 (by rfl)

/-- C9: confirmed.  A successful `Assign` evaluates to exactly the value
its right-hand side produced (first conjunct); a successful `Set`
evaluates the object to an instance, then the right-hand side, stores
that same value in the instance's property map, and returns it (second
conjunct): the stored value and the expression's result coincide. -/
theorem c9_assign_set_evaluate_to_value :
    (∀ (fuel : Nat) (st : InterpState) (name : Token) (value : Expr)
       (r : LoxValue) (st' : InterpState),
      evaluate (fuel + 1) st (.assign name value) = (.ok r, st') →
      ∃ st1, evaluate fuel st value = (.ok r, st1)) ∧
    (∀ (fuel : Nat) (st : InterpState) (obj : Expr) (name : Token)
       (value : Expr) (r : LoxValue) (st' : InterpState),
      evaluate (fuel + 1) st (.set obj name value) = (.ok r, st') →
      ∃ iid st1 st2, evaluate fuel st obj = (.ok (.instanceV iid), st1) ∧
        evaluate fuel st1 value = (.ok r, st2) ∧
        st' = instanceSet st2 iid name.token r) := by
  constructor
  · intro fuel st name value r st' h
    rw [evaluate] at h
    split at h <;> rename_i heq
    · split at h
      · split at h
        · injection h with h1 h2
          injection h1 with h1
          rw [h1] at heq
          exact ⟨_, heq⟩
        · injection h with h1 h2
          exact Outcome.noConfusion h1
      · split at h
        · injection h with h1 h2
          injection h1 with h1
          rw [h1] at heq
          exact ⟨_, heq⟩
        · injection h with h1 h2
          exact Outcome.noConfusion h1
    all_goals
      injection h with h1 h2
      exact Outcome.noConfusion h1
  · intro fuel st obj name value r st' h
    rw [evaluate] at h
    split at h <;> rename_i heq
    · split at h <;> rename_i ho
      · split at h <;> rename_i heq2
        · injection h with h1 h2
          injection h1 with h1
          rw [h1] at heq2
          exact ⟨_, _, _, heq, heq2, h2.symm ▸ (h1 ▸ rfl)⟩
        all_goals
          injection h with h1 h2
          exact Outcome.noConfusion h1
      · injection h with h1 h2
        exact Outcome.noConfusion h1
    all_goals
      injection h with h1 h2
      exact Outcome.noConfusion h1

/-- Witness for C9 at concrete inputs: assigning `2` to the global
`clock` evaluates to `2`, and `a.f = 3` on an instance-bearing state
evaluates to `3` while the final state stores that same `3`. -/
theorem c9_witness :
    (∃ st1, evaluate 3 (initState []) (numLit 2) = (.ok (.number 2), st1)) ∧
    (∃ iid st1 st2,
      evaluate 3 witState (.varE aTok) = (.ok (.instanceV iid), st1) ∧
      evaluate 3 st1 (numLit 3) = (.ok (.number 3), st2) ∧
      witStateAfter = instanceSet st2 iid (idTok "f").token (.number 3)) :=
  ⟨c9_assign_set_evaluate_to_value.1 3 (initState []) clockTok (numLit 2)
      (.number 2) _ rfl,
   c9_assign_set_evaluate_to_value.2 3 witState (.varE aTok) (idTok "f")
      (numLit 3) (.number 3) witStateAfter rfl⟩

/-- C10: confirmed.  Once the callee and all arguments have evaluated
(left to right; their side effects live in `st2`, which is also the state
the error is raised in), a non-callable callee fails with the message
`<display> is not callable.` and an arity mismatch fails with
`Expected N arguments but got M.` — both only after argument evaluation
(first conjunct).  The non-callable values are exactly `nil`, booleans,
numbers, strings and instances (second conjunct). -/
theorem c10_call_errors_after_arguments :
    (∀ (fuel : Nat) (st : InterpState) (callee : Expr) (paren : Token)
       (args : List Expr) (v : LoxValue) (st1 : InterpState)
       (vs : List LoxValue) (st2 : InterpState),
      evaluate fuel st callee = (.ok v, st1) →
      evalArgs fuel st1 args = (.ok vs, st2) →
      (asCallable v = none →
        evaluate (fuel + 1) st (.call callee paren args) =
          (.err ⟨paren, displayValue st2.instances v ++ " is not callable.",
            .fatalError⟩, st2)) ∧
      (∀ c, asCallable v = some c → vs.length ≠ callableArity c →
        evaluate (fuel + 1) st (.call callee paren args) =
          (.err ⟨paren, "Expected " ++ toString (callableArity c) ++
            " arguments but got " ++ toString vs.length ++ ".",
            .fatalError⟩, st2))) ∧
    (∀ v : LoxValue, asCallable v = none ↔
      (v = .nil ∨ (∃ b, v = .boolean b) ∨ (∃ n, v = .number n) ∨
       (∃ s, v = .stringV s) ∨ (∃ i, v = .instanceV i))) := by
  constructor
  · intro fuel st callee paren args v st1 vs st2 hc ha
    constructor
    · intro hnone
      simp only [evaluate, hc, ha, hnone]
    · intro c hsome hne
      simp only [evaluate, hc, ha, hsome]
      rw [if_pos hne]
  · intro v
    cases v <;> simp [asCallable]

/-- Witness for C10 at concrete inputs: calling the number `3` fails with
"is not callable." after the (empty) argument list, and calling `clock`
with one argument fails with the arity message after that argument has
been evaluated. -/
theorem c10_witness :
    evaluate 4 (initState []) (.call (numLit 3) parenTok []) =
      (.err ⟨parenTok,
        displayValue (initState []).instances (.number 3) ++
          " is not callable.", .fatalError⟩, initState []) ∧
    evaluate 4 (initState []) (.call (.varE clockTok) parenTok [numLit 1]) =
      (.err ⟨parenTok,
        "Expected " ++ toString (callableArity .clock) ++
          " arguments but got " ++ toString [LoxValue.number 1].length ++ ".",
        .fatalError⟩, initState []) :=
  ⟨(c10_call_errors_after_arguments.1 3 (initState []) (numLit 3) parenTok []
      (.number 3) (initState []) [] (initState []) rfl rfl).1 rfl,
   (c10_call_errors_after_arguments.1 3 (initState []) (.varE clockTok)
      parenTok [numLit 1] (.callable .clock) (initState [])
      [.number 1] (initState []) rfl rfl).2 .clock rfl (by decide)⟩

end Lox
